import Mathlib

/-!
Shallow embedding of the client-state managers of the AI-Dashboard frontend:
the session/auth manager (src/frontend/src/context/AuthContext.jsx), the
active-dataset tracker (src/frontend/src/context/DatasetContext.jsx), the
notification bridge (src/frontend/src/context/NotificationContext.jsx), the
API error interceptor (src/frontend/src/api/client.js) and the password-reset
form handler (src/frontend/src/pages/ForgotPassword.jsx).

JavaScript values that may be absent are modelled as `Option`; JS string
truthiness (`""` is falsy) is made explicit.  Asynchronous network completions
are modelled as explicit events processed one at a time, matching the
single-threaded event-loop execution of the source: each `.then`/`.catch`
callback body runs as one atomic step.
-/

/-- JS truthiness of an optional string field: absent and `""` are falsy. -/
def jsTruthy : Option String → Bool
  | none => false
  | some s => s != ""

/-- JS `a || d` for an optional string `a` and string default `d`:
the default is used when the field is absent or the empty string. -/
def jsOrStr : Option String → String → String
  | none, d => d
  | some s, d => if s = "" then d else s

/-- An axios error as seen by the response interceptor in
src/frontend/src/api/client.js: `error.response?.data?.detail`,
`error.response?.data?.message` and `error.message`. -/
structure ApiError where
  responseDetail : Option String
  responseMessage : Option String
  errMessage : Option String
deriving DecidableEq

/-- The response interceptor of src/frontend/src/api/client.js:
`error.response?.data?.detail || error.response?.data?.message ||
error.message || 'An unexpected error occurred'`, attached to the error
as `friendlyMessage`. -/
def friendlyMessage (e : ApiError) : String :=
  jsOrStr e.responseDetail
    (jsOrStr e.responseMessage
      (jsOrStr e.errMessage "An unexpected error occurred"))

/-- In-memory session state of AuthContext.jsx: `user`, `token`,
`loading`, `activeBalance`.  The user record is kept opaque (its JSON
serialisation). -/
structure AuthState where
  user : Option String
  token : Option String
  loading : Bool
  activeBalance : Nat
deriving DecidableEq

/-- Browser storage as used by the providers: sessionStorage keys `token`
and `user` (AuthContext.jsx) and localStorage keys `activeFileId` and
`activeFileName` (DatasetContext.jsx).  `none` means the key is absent. -/
structure WebStorage where
  ssToken : Option String
  ssUser : Option String
  lsActiveFileId : Option String
  lsActiveFileName : Option String
deriving DecidableEq

/-- `logout` from AuthContext.jsx lines 191-201: sets token, user to null and
balance to 0, removes the sessionStorage keys `token` and `user`, and drops
the default Authorization header.  The body contains no request to the
server, so the list of API requests it issues is empty.  It does not touch
the localStorage keys owned by DatasetContext. -/
def logout (s : AuthState) (st : WebStorage) :
    AuthState × WebStorage × List String :=
  ({ user := none, token := none, loading := s.loading, activeBalance := 0 },
   { st with ssToken := none, ssUser := none },
   [])

/-- Payload of GET /credits as read by `refreshCredits`
(`data.active_tokens`). -/
structure CreditsResp where
  active_tokens : Option Nat
deriving DecidableEq

/-- `refreshCredits` from AuthContext.jsx lines 16-28.  The network outcome
is passed explicitly: `Except.ok` is a resolved `creditsApi.getCredits()`,
`Except.error` a rejected one.  Returns the new state and the value the
function returns: 0 when no token is present, `data.active_tokens || 0` on
success, and the previously stored `activeBalance` on failure. -/
def refreshCredits (s : AuthState) (resp : Except Unit CreditsResp) :
    AuthState × Nat :=
  match s.token with
  | none => (s, 0)
  | some _ =>
    match resp with
    | .ok data =>
      let balance := match data.active_tokens with
        | none => 0
        | some n => n
      ({ s with activeBalance := balance }, balance)
    | .error _ => (s, s.activeBalance)

/-- Payload of POST /auth/login as read by `login` (`data.access_token`,
`data.user`); the user record is kept opaque. -/
structure LoginResp where
  access_token : String
  user : String
deriving DecidableEq

/-- `login` from AuthContext.jsx lines 52-71.  On success it stores the
token and user in state and sessionStorage and returns true; on failure it
leaves state and storage untouched and re-throws the same error object
(whose `friendlyMessage` was attached by the interceptor). -/
def login (s : AuthState) (st : WebStorage)
    (resp : Except ApiError LoginResp) :
    AuthState × WebStorage × Except ApiError Bool :=
  match resp with
  | .ok data =>
    ({ s with token := some data.access_token, user := some data.user },
     { st with ssToken := some data.access_token, ssUser := some data.user },
     .ok true)
  | .error e => (s, st, .error e)

/-- Result of the password-reset confirmation submit handler: the inline
error message, and the list of API requests the handler issued. -/
structure ResetOutcome where
  errorMsg : Option String
  requests : List String
deriving DecidableEq

/-- `handleResetPassword` from ForgotPassword.jsx lines 120-146: rejects
locally when the new password is under 6 characters or the two copies
mismatch (no request sent); otherwise it issues the confirm request and on
rejection shows `err.response?.data?.detail` or a fallback. -/
def handleResetPassword (newPassword confirmPassword : String)
    (resp : Except ApiError Unit) : ResetOutcome :=
  if newPassword.length < 6 then
    { errorMsg := some "Password must be at least 6 characters", requests := [] }
  else if newPassword ≠ confirmPassword then
    { errorMsg := some "Passwords do not match", requests := [] }
  else
    match resp with
    | .ok _ =>
      { errorMsg := none, requests := ["/auth/password-reset/confirm"] }
    | .error e =>
      { errorMsg := some (jsOrStr e.responseDetail
          "Failed to reset password. Please try again."),
        requests := ["/auth/password-reset/confirm"] }

/-- Classification of a notification, called `type` in
NotificationContext.jsx. -/
inductive NotifKind
  | success
  | error
  | info
  | warning
deriving DecidableEq

/-- A record of the notification history (NotificationContext.jsx): in the
source, `id` is `Date.now()` and `timestamp` is `new Date()` read at the same
moment, both modelled as the millisecond clock value at the call. -/
structure NotificationRecord where
  id : Nat
  timestamp : Nat
  kind : NotifKind
  title : String
  description : Option String
deriving DecidableEq

/-- State of NotificationContext.jsx: the retained history (newest first)
and the unread counter. -/
structure NotifState where
  notifications : List NotificationRecord
  unreadCount : Nat
deriving DecidableEq

/-- The record built by `addNotification`: `id: Date.now()`,
`timestamp: new Date()`, then the caller-supplied fields. -/
def mkNotifRecord (clock : Nat) (k : NotifKind) (title : String)
    (desc : Option String) : NotificationRecord :=
  { id := clock, timestamp := clock, kind := k, title := title,
    description := desc }

/-- `addNotification` from NotificationContext.jsx: prepends the new record,
truncates with `.slice(0, 5)`, and increments the unread counter.  `clock`
is the value `Date.now()` returns at this call. -/
def addNotification (clock : Nat) (k : NotifKind) (title : String)
    (desc : Option String) (s : NotifState) : NotifState :=
  { notifications := (mkNotifRecord clock k title desc :: s.notifications).take 5,
    unreadCount := s.unreadCount + 1 }

/-- `markAllAsRead` from NotificationContext.jsx: resets the unread counter
and leaves the history untouched. -/
def markAllAsRead (s : NotifState) : NotifState :=
  { s with unreadCount := 0 }

/-- Events driving the notification provider: a call to `addNotification`
(with the clock reading supplying `Date.now()`), or `markAllAsRead`. -/
inductive NotifEv
  | add (clock : Nat) (k : NotifKind) (title : String) (desc : Option String)
  | markAll
deriving DecidableEq

/-- One provider step for a notification event. -/
def notifStep (s : NotifState) : NotifEv → NotifState
  | .add c k t d => addNotification c k t d s
  | .markAll => markAllAsRead s

/-- Run the notification provider over a sequence of events. -/
def runNotif (s : NotifState) (evs : List NotifEv) : NotifState :=
  evs.foldl notifStep s

/-- Initial provider state: empty history, zero unread. -/
def initNotif : NotifState :=
  { notifications := [], unreadCount := 0 }

/-- The records produced by the `add` events of a trace, in call order. -/
def notifRecordsOf : List NotifEv → List NotificationRecord
  | [] => []
  | .add c k t d :: rest => mkNotifRecord c k t d :: notifRecordsOf rest
  | .markAll :: rest => notifRecordsOf rest

/-- Number of `add` events after the last `markAll` of the trace
(the whole trace when no `markAll` occurs). -/
def addsSinceLastMark (evs : List NotifEv) : Nat :=
  evs.foldl
    (fun n ev => match ev with
      | .add _ _ _ _ => n + 1
      | .markAll => 0)
    0

/-- The clock readings of the `add` events of a trace, in call order. -/
def addClocks : List NotifEv → List Nat
  | [] => []
  | .add c _ _ _ :: rest => c :: addClocks rest
  | .markAll :: rest => addClocks rest

/-- Kind of failure a status fetch can reject with; the catch handler in
DatasetContext.jsx receives the error but never inspects it. -/
inductive ErrKind
  | notFound
  | network
  | serverError
deriving DecidableEq

/-- State of the DatasetProvider (DatasetContext.jsx): the React state
fields, the two localStorage keys it owns, and the identifiers with an
in-flight `fileApi.getStatus` / `processingApi.getResult` request. -/
structure TrackerState where
  activeFileId : Option String
  activeFileName : Option String
  activeMetadata : Option String
  isTextOnly : Bool
  textContent : String
  lsFileId : Option String
  lsFileName : Option String
  pendingStatus : List String
  pendingResult : List String
deriving DecidableEq

/-- The `useEffect` body of DatasetContext.jsx lines 18-53, run after
`activeFileId` changes.  With a non-null id it persists the id and issues
the status and processing-result fetches (recorded as pending); with null
it removes both localStorage keys and nulls `activeFileName` and
`activeMetadata` — it does NOT touch `isTextOnly` or `textContent`. -/
def runDatasetEffect (s : TrackerState) : TrackerState :=
  match s.activeFileId with
  | some fid =>
    { s with lsFileId := some fid,
             pendingStatus := s.pendingStatus ++ [fid],
             pendingResult := s.pendingResult ++ [fid] }
  | none =>
    { s with lsFileId := none, lsFileName := none,
             activeFileName := none, activeMetadata := none }

/-- `setActiveFileId` as exposed by the provider: updates the state field;
the effect re-runs only when the dependency actually changed (React skips
the effect when the value is unchanged). -/
def setActiveFileId (v : Option String) (s : TrackerState) : TrackerState :=
  if v = s.activeFileId then s
  else runDatasetEffect { s with activeFileId := v }

/-- The `.then` callback of `fileApi.getStatus` (DatasetContext.jsx lines
23-27): when `data.filename` is truthy, set `activeFileName` and persist
it.  The callback never checks that `fid` is still the active id. -/
def applyStatusOk (fid : String) (filename : Option String)
    (s : TrackerState) : TrackerState :=
  let s1 := { s with pendingStatus := s.pendingStatus.erase fid }
  if jsTruthy filename then
    { s1 with activeFileName := filename, lsFileName := filename }
  else s1

/-- The `.catch` callback of `fileApi.getStatus` (DatasetContext.jsx lines
28-35): regardless of the error kind it nulls `activeFileId` and
`activeFileName` and removes both localStorage keys; the effect then
re-runs if the id changed. -/
def applyStatusFail (fid : String) (_k : ErrKind) (s : TrackerState) :
    TrackerState :=
  let s1 := { s with pendingStatus := s.pendingStatus.erase fid,
                     activeFileName := none,
                     lsFileId := none, lsFileName := none }
  setActiveFileId none s1

/-- The `.then` callback of `processingApi.getResult` (DatasetContext.jsx
lines 39-41): `isTextOnly` becomes `data.dataframes?.length === 0` (false
when the field is absent) and `textContent` becomes
`data.text_content || ''`. -/
def applyResultOk (fid : String) (numDataframes : Option Nat)
    (text : Option String) (s : TrackerState) : TrackerState :=
  { s with pendingResult := s.pendingResult.erase fid,
           isTextOnly := numDataframes == some 0,
           textContent := (jsOrStr text "") }

/-- The `.catch` callback of `processingApi.getResult` (DatasetContext.jsx
lines 42-45): non-critical, no state change. -/
def applyResultFail (fid : String) (s : TrackerState) : TrackerState :=
  { s with pendingResult := s.pendingResult.erase fid }

/-- Events driving the tracker: a user call to `setActiveFileId`, or the
completion (fulfilment or rejection) of one of the in-flight fetches.  A
completion carries the identifier the request was keyed to. -/
inductive TrackerEv
  | setFile (v : Option String)
  | statusOk (fid : String) (filename : Option String)
  | statusFail (fid : String) (kind : ErrKind)
  | resultOk (fid : String) (numDataframes : Option Nat) (text : Option String)
  | resultFail (fid : String)
deriving DecidableEq

/-- One serialized event-loop step.  A completion event is only valid when
a matching request is in flight; an invalid interleaving yields `none`. -/
def trackerStep (s : TrackerState) : TrackerEv → Option TrackerState
  | .setFile v => some (setActiveFileId v s)
  | .statusOk fid fn =>
    if fid ∈ s.pendingStatus then some (applyStatusOk fid fn s) else none
  | .statusFail fid k =>
    if fid ∈ s.pendingStatus then some (applyStatusFail fid k s) else none
  | .resultOk fid n t =>
    if fid ∈ s.pendingResult then some (applyResultOk fid n t s) else none
  | .resultFail fid =>
    if fid ∈ s.pendingResult then some (applyResultFail fid s) else none

/-- Run the tracker over a sequence of events. -/
def runTracker (s : TrackerState) : List TrackerEv → Option TrackerState
  | [] => some s
  | e :: rest =>
    match trackerStep s e with
    | some s1 => runTracker s1 rest
    | none => none

/-- Fresh provider state: nothing selected, nothing persisted, nothing in
flight. -/
def initTracker : TrackerState :=
  { activeFileId := none, activeFileName := none, activeMetadata := none,
    isTextOnly := false, textContent := "",
    lsFileId := none, lsFileName := none,
    pendingStatus := [], pendingResult := [] }

/-- Tracker state reached from a fresh provider by `setActiveFileId("A")`
immediately followed by `setActiveFileId("B")`: B is active and persisted,
and the fetches for both A and B are still in flight. -/
def trackerAfterSwitch : TrackerState :=
  { initTracker with activeFileId := some "B", lsFileId := some "B",
                     pendingStatus := ["A", "B"],
                     pendingResult := ["A", "B"] }

/-- Tracker state reached from a fresh provider by `setActiveFileId("f1")`:
f1 active and persisted, its two fetches in flight. -/
def trackerWithF1 : TrackerState :=
  { initTracker with activeFileId := some "f1", lsFileId := some "f1",
                     pendingStatus := ["f1"], pendingResult := ["f1"] }

/-- A tracker state holding a text-only dataset: f1 selected, name known
and persisted, processing result applied (text-only with cached text). -/
def textTrackerState : TrackerState :=
  { activeFileId := some "f1", activeFileName := some "notes.txt",
    activeMetadata := none, isTextOnly := true, textContent := "hello",
    lsFileId := some "f1", lsFileName := some "notes.txt",
    pendingStatus := [], pendingResult := [] }

/-- A concrete authenticated session. -/
def sampleAuthState : AuthState :=
  { user := some "u", token := some "tok", loading := false,
    activeBalance := 7 }

/-- A concrete storage snapshot in which all four persisted keys exist. -/
def sampleStorage : WebStorage :=
  { ssToken := some "tok", ssUser := some "u",
    lsActiveFileId := some "f1", lsActiveFileName := some "data.csv" }

theorem notifRecordsOf_append (l1 l2 : List NotifEv) :
    notifRecordsOf (l1 ++ l2) = notifRecordsOf l1 ++ notifRecordsOf l2 := by
  induction l1 with
  | nil => rfl
  | cons e rest ih =>
    cases e <;> simp [notifRecordsOf, ih]

theorem take_append_take {α : Type} (n : Nat) (L M : List α) :
    (L ++ M.take n).take n = (L ++ M).take n := by
  simp [List.take_append_eq_append_take, List.take_take, Nat.min_def,
    Nat.sub_le]

theorem notifStep_unread (s : NotifState) (e : NotifEv) :
    (notifStep s e).unreadCount =
      (match e with
       | .add _ _ _ _ => s.unreadCount + 1
       | .markAll => 0) := by
  cases e <;> rfl

theorem runNotif_unread (evs : List NotifEv) :
    ∀ s : NotifState,
      (runNotif s evs).unreadCount =
        evs.foldl
          (fun n ev => match ev with
            | .add _ _ _ _ => n + 1
            | .markAll => 0)
          s.unreadCount := by
  induction evs with
  | nil => intro s; rfl
  | cons e rest ih =>
    intro s
    have h1 : runNotif s (e :: rest) = runNotif (notifStep s e) rest := rfl
    rw [h1, ih]
    cases e <;> simp [notifStep, addNotification, markAllAsRead]

theorem runNotif_history (evs : List NotifEv) :
    ∀ s : NotifState, s.notifications.length ≤ 5 →
      (runNotif s evs).notifications =
        ((notifRecordsOf evs).reverse ++ s.notifications).take 5 := by
  induction evs with
  | nil =>
    intro s h
    simp only [runNotif, List.foldl_nil, notifRecordsOf, List.reverse_nil,
      List.nil_append]
    exact (List.take_of_length_le h).symm
  | cons e rest ih =>
    intro s h
    have h1 : runNotif s (e :: rest) = runNotif (notifStep s e) rest := rfl
    cases e with
    | add c k t d =>
      have hlen : (notifStep s (.add c k t d)).notifications.length ≤ 5 := by
        simp [notifStep, addNotification]
      rw [h1, ih _ hlen]
      have h2 : (notifStep s (.add c k t d)).notifications =
          (mkNotifRecord c k t d :: s.notifications).take 5 := rfl
      rw [h2, take_append_take]
      simp [notifRecordsOf]
    | markAll =>
      have hlen : (notifStep s .markAll).notifications.length ≤ 5 := h
      rw [h1, ih _ hlen]
      rfl

theorem notifRecordsOf_map_id (evs : List NotifEv) :
    (notifRecordsOf evs).map (fun r => r.id) = addClocks evs := by
  induction evs with
  | nil => rfl
  | cons e rest ih =>
    cases e <;> simp [notifRecordsOf, addClocks, mkNotifRecord, ih]

/-- C6: over any sequence of addNotification and markAllAsRead calls the
history never exceeds 5 records with the newest prepended and the oldest
evicted first (the history is exactly the 5 most recent records, newest
first), the unread count equals the number of additions since the last
markAllAsRead (or since construction), and markAllAsRead zeroes the unread
count without altering the history. -/
theorem notification_history_bounded_unread_counted (evs : List NotifEv) :
    (runNotif initNotif evs).notifications.length ≤ 5
    ∧ (runNotif initNotif evs).notifications =
        ((notifRecordsOf evs).reverse).take 5
    ∧ (runNotif initNotif evs).unreadCount = addsSinceLastMark evs
    ∧ (markAllAsRead (runNotif initNotif evs)).notifications =
        (runNotif initNotif evs).notifications
    ∧ (markAllAsRead (runNotif initNotif evs)).unreadCount = 0 := by
  have hchar := runNotif_history evs initNotif (by simp [initNotif])
  have hnil : initNotif.notifications = [] := rfl
  rw [hnil, List.append_nil] at hchar
  refine ⟨?_, hchar, ?_, rfl, rfl⟩
  · rw [hchar]
    simp [List.length_take]
  · rw [runNotif_unread evs initNotif]
    rfl

/-- C9 counterexample: two addNotification calls during the same
millisecond (Date.now() returns 1000 twice) produce two records with the
same id 1000, so ids are not unique and a later record's id is not
strictly greater than an earlier one's. -/
theorem notification_id_collision_counterexample :
    ((runNotif initNotif
        [NotifEv.add 1000 NotifKind.success "saved" none,
         NotifEv.add 1000 NotifKind.error "failed" none]).notifications.map
      (fun r => r.id)) = [1000, 1000]
    ∧ ¬ ((runNotif initNotif
        [NotifEv.add 1000 NotifKind.success "saved" none,
         NotifEv.add 1000 NotifKind.error "failed" none]).notifications.map
      (fun r => r.id)).Nodup := by
  have h : ((runNotif initNotif
      [NotifEv.add 1000 NotifKind.success "saved" none,
       NotifEv.add 1000 NotifKind.error "failed" none]).notifications.map
    (fun r => r.id)) = [1000, 1000] := rfl
  refine ⟨h, ?_⟩
  rw [h]
  decide

/-- C9 amended: notification ids are Date.now() readings, so they are
non-decreasing in call order (a record added later has an id greater than
or equal to any earlier one) but not unique: whenever the clock readings of
the add calls are non-decreasing, the retained history (newest first)
carries non-increasing ids. -/
theorem notification_ids_nondecreasing (evs : List NotifEv)
    (h : (addClocks evs).Pairwise (· ≤ ·)) :
    ((runNotif initNotif evs).notifications.map (fun r => r.id)).Pairwise
      (fun a b => b ≤ a) := by
  have hchar := runNotif_history evs initNotif (by simp [initNotif])
  have hnil : initNotif.notifications = [] := rfl
  rw [hnil, List.append_nil] at hchar
  have h2 : ((addClocks evs).reverse).Pairwise (fun a b => b ≤ a) := by
    rw [List.pairwise_reverse]
    exact h
  have h3 : (((addClocks evs).reverse).take 5).Pairwise (fun a b => b ≤ a) :=
    h2.sublist (List.take_sublist 5 _)
  rw [hchar]
  simpa [List.map_take, List.map_reverse, notifRecordsOf_map_id] using h3

/-- Witness for C9 amended at a concrete trace with clocks 1 then 2. -/
theorem notification_ids_nondecreasing_witness :
    ((addClocks [NotifEv.add 1 NotifKind.info "x" none,
                 NotifEv.add 2 NotifKind.info "y" none]).Pairwise (· ≤ ·))
    ∧ ((runNotif initNotif
          [NotifEv.add 1 NotifKind.info "x" none,
           NotifEv.add 2 NotifKind.info "y" none]).notifications.map
        (fun r => r.id)).Pairwise (fun a b => b ≤ a) :=
  ⟨by decide,
   notification_ids_nondecreasing
     [NotifEv.add 1 NotifKind.info "x" none,
      NotifEv.add 2 NotifKind.info "y" none] (by decide)⟩

theorem jsOrStr_ne_empty (o : Option String) (d : String) (hd : d ≠ "") :
    jsOrStr o d ≠ "" := by
  cases o with
  | none => simpa [jsOrStr] using hd
  | some s =>
    by_cases h : s = ""
    · simpa [jsOrStr, h] using hd
    · simp [jsOrStr, h]

/-- C1 counterexample: start fresh, call `setActiveFileId("A")` then
`setActiveFileId("B")`, and let the status fetch issued for A complete
(filename "a.csv") after the switch to B.  Before the late completion the
file name is still null; the late response keyed to A is applied, leaving
`activeFileName = "a.csv"` (the name of A) while `activeFileId = "B"`, so
the final state does not correspond to B and the stale response was not
discarded. -/
theorem stale_response_applied_counterexample :
    (runTracker initTracker
      [TrackerEv.setFile (some "A"),
       TrackerEv.setFile (some "B")]).map TrackerState.activeFileName
      = some none
    ∧ (runTracker initTracker
      [TrackerEv.setFile (some "A"),
       TrackerEv.setFile (some "B"),
       TrackerEv.statusOk "A" (some "a.csv")]).map TrackerState.activeFileName
      = some (some "a.csv")
    ∧ (runTracker initTracker
      [TrackerEv.setFile (some "A"),
       TrackerEv.setFile (some "B"),
       TrackerEv.statusOk "A" (some "a.csv")]).map TrackerState.activeFileId
      = some (some "B") :=
  ⟨rfl, rfl, rfl⟩

/-- C1 amended: the status callback never compares its identifier with the
current one, so a late status response keyed to a file `a` that is still in
flight is always applied: it overwrites `activeFileName` and its persisted
copy with the fetched filename while leaving the (possibly different)
active identifier as it is.  The final state corresponds to the newer file
only in interleavings where its responses settle after the stale ones. -/
theorem stale_status_applied_regardless_of_current_id (s : TrackerState)
    (a f : String) (hp : a ∈ s.pendingStatus) (hf : f ≠ "") :
    trackerStep s (TrackerEv.statusOk a (some f)) =
      some { s with pendingStatus := s.pendingStatus.erase a,
                    activeFileName := some f, lsFileName := some f } := by
  simp [trackerStep, hp, applyStatusOk, jsTruthy, hf]

/-- Witness for C1 amended: with B active and the fetch for A in flight,
the late status response for A overwrites the file name. -/
theorem stale_status_applied_witness :
    ("A" ∈ trackerAfterSwitch.pendingStatus ∧ ("a" : String) ≠ "")
    ∧ trackerStep trackerAfterSwitch (TrackerEv.statusOk "A" (some "a")) =
        some { trackerAfterSwitch with
                 pendingStatus := trackerAfterSwitch.pendingStatus.erase "A",
                 activeFileName := some "a", lsFileName := some "a" } :=
  ⟨⟨by decide, by decide⟩,
   stale_status_applied_regardless_of_current_id trackerAfterSwitch "A" "a"
     (by decide) (by decide)⟩

/-- C3 counterexample: with a text-only dataset active, clearing the
selection via `setActiveFileId(null)` nulls the identifier but leaves
`isTextOnly = true` and `textContent = "hello"`: the else branch of the
effect touches neither field, so not all dependent fields are cleared. -/
theorem clear_keeps_text_fields_counterexample :
    (setActiveFileId none textTrackerState).activeFileId = none
    ∧ (setActiveFileId none textTrackerState).isTextOnly = true
    ∧ (setActiveFileId none textTrackerState).textContent = "hello" :=
  ⟨rfl, rfl, rfl⟩

/-- C3 amended: for every tracker state with a non-null identifier,
`setActiveFileId(null)` clears the file name, the metadata and both
persisted copies, but leaves `isTextOnly` and `textContent` unchanged. -/
theorem setActiveFileId_null_clears_name_metadata_storage (s : TrackerState)
    (fid : String) (h : s.activeFileId = some fid) :
    (setActiveFileId none s).activeFileId = none
    ∧ (setActiveFileId none s).activeFileName = none
    ∧ (setActiveFileId none s).activeMetadata = none
    ∧ (setActiveFileId none s).lsFileId = none
    ∧ (setActiveFileId none s).lsFileName = none
    ∧ (setActiveFileId none s).isTextOnly = s.isTextOnly
    ∧ (setActiveFileId none s).textContent = s.textContent := by
  have hne : (none : Option String) ≠ s.activeFileId := by
    rw [h]; simp
  simp [setActiveFileId, hne, runDatasetEffect]

/-- Witness for C3 amended at the concrete text-only state. -/
theorem setActiveFileId_null_clears_witness :
    textTrackerState.activeFileId = some "f1"
    ∧ ((setActiveFileId none textTrackerState).activeFileId = none
       ∧ (setActiveFileId none textTrackerState).activeFileName = none
       ∧ (setActiveFileId none textTrackerState).activeMetadata = none
       ∧ (setActiveFileId none textTrackerState).lsFileId = none
       ∧ (setActiveFileId none textTrackerState).lsFileName = none
       ∧ (setActiveFileId none textTrackerState).isTextOnly =
           textTrackerState.isTextOnly
       ∧ (setActiveFileId none textTrackerState).textContent =
           textTrackerState.textContent) :=
  ⟨rfl,
   setActiveFileId_null_clears_name_metadata_storage textTrackerState "f1" rfl⟩

/-- C4: when the status fetch for the currently active identifier is
rejected with not-found, the catch handler (plus the effect re-run it
triggers) clears the identifier, the file name, both persisted copies and
the metadata in one serialized step, so the reference is never observable
in a partially cleared state. -/
theorem status_not_found_resets_tracker_atomically (s : TrackerState)
    (fid : String) (hid : s.activeFileId = some fid)
    (hp : fid ∈ s.pendingStatus) :
    (trackerStep s (TrackerEv.statusFail fid ErrKind.notFound)).map
      (fun t => (t.activeFileId, t.activeFileName, t.lsFileId, t.lsFileName,
                 t.activeMetadata)) =
      some (none, none, none, none, none) := by
  simp [trackerStep, hp, applyStatusFail, setActiveFileId, runDatasetEffect,
    hid]

/-- Witness for C4: a 404 on the status fetch of the active file f1 resets
the tracker. -/
theorem status_not_found_resets_witness :
    (trackerWithF1.activeFileId = some "f1"
     ∧ "f1" ∈ trackerWithF1.pendingStatus)
    ∧ (trackerStep trackerWithF1
        (TrackerEv.statusFail "f1" ErrKind.notFound)).map
        (fun t => (t.activeFileId, t.activeFileName, t.lsFileId, t.lsFileName,
                   t.activeMetadata)) =
        some (none, none, none, none, none) :=
  ⟨⟨rfl, by decide⟩,
   status_not_found_resets_tracker_atomically trackerWithF1 "f1" rfl
     (by decide)⟩

/-- C10: the catch handler of the status fetch never inspects the error, so
every failure kind — not-found, a transient network error, or a server
error — clears the active identifier and removes both persisted keys, and
a momentary network failure therefore discards the active dataset
reference. -/
theorem any_status_fetch_failure_clears_tracker (s : TrackerState)
    (fid : String) (kind : ErrKind) (hid : s.activeFileId = some fid)
    (hp : fid ∈ s.pendingStatus) :
    (trackerStep s (TrackerEv.statusFail fid kind)).map
      (fun t => (t.activeFileId, t.lsFileId, t.lsFileName)) =
      some (none, none, none) := by
  simp [trackerStep, hp, applyStatusFail, setActiveFileId, runDatasetEffect,
    hid]

/-- Witness for C10: a plain network failure on the status fetch of the
active file f1 also resets the tracker and drops both persisted keys. -/
theorem any_status_fetch_failure_clears_witness :
    (trackerWithF1.activeFileId = some "f1"
     ∧ "f1" ∈ trackerWithF1.pendingStatus)
    ∧ (trackerStep trackerWithF1
        (TrackerEv.statusFail "f1" ErrKind.network)).map
        (fun t => (t.activeFileId, t.lsFileId, t.lsFileName)) =
        some (none, none, none) :=
  ⟨⟨rfl, by decide⟩,
   any_status_fetch_failure_clears_tracker trackerWithF1 "f1" ErrKind.network
     rfl (by decide)⟩

/-- C2 counterexample: with all four persisted keys present, `logout`
removes the sessionStorage token and user but the localStorage keys
`activeFileId` and `activeFileName` are still present afterwards, contrary
to the claim that no file keys remain. -/
theorem logout_leaves_file_keys_counterexample :
    (logout sampleAuthState sampleStorage).2.1.ssToken = none
    ∧ (logout sampleAuthState sampleStorage).2.1.ssUser = none
    ∧ (logout sampleAuthState sampleStorage).2.1.lsActiveFileId = some "f1"
    ∧ (logout sampleAuthState sampleStorage).2.1.lsActiveFileName =
        some "data.csv" :=
  ⟨rfl, rfl, rfl, rfl⟩

/-- C2 amended: `logout` synchronously clears the session fields (token,
user, balance) and removes the persisted `token` and `user` keys, issuing
no network request; it does not remove the persisted `activeFileId` and
`activeFileName` keys, which keep their previous values. -/
theorem logout_clears_session_not_file_keys (s : AuthState) (st : WebStorage) :
    (logout s st).1.token = none
    ∧ (logout s st).1.user = none
    ∧ (logout s st).1.activeBalance = 0
    ∧ (logout s st).2.1.ssToken = none
    ∧ (logout s st).2.1.ssUser = none
    ∧ (logout s st).2.2 = []
    ∧ (logout s st).2.1.lsActiveFileId = st.lsActiveFileId
    ∧ (logout s st).2.1.lsActiveFileName = st.lsActiveFileName :=
  ⟨rfl, rfl, rfl, rfl, rfl, rfl, rfl, rfl⟩

/-- C5: with a token present, a failed credits fetch leaves the whole
session state (including the cached balance) unchanged and returns the
previously cached balance rather than throwing or returning zero. -/
theorem refreshCredits_failure_returns_cached_balance (s : AuthState)
    (t : String) (h : s.token = some t) :
    refreshCredits s (Except.error ()) = (s, s.activeBalance) := by
  simp [refreshCredits, h]

/-- Witness for C5: authenticated session with cached balance 7. -/
theorem refreshCredits_failure_witness :
    sampleAuthState.token = some "tok"
    ∧ refreshCredits sampleAuthState (Except.error ()) =
        (sampleAuthState, sampleAuthState.activeBalance) :=
  ⟨rfl, refreshCredits_failure_returns_cached_balance sampleAuthState "tok" rfl⟩

/-- C7: a failed login leaves the session state and the persisted storage
exactly as they were (in particular it stays unauthenticated when it was,
and no token or user is written) and re-throws the same error object,
whose interceptor-attached friendly message is never the empty string:
it is the response detail or message field, the transport error message,
or the non-empty fallback. -/
theorem login_failure_preserves_state_and_rethrows (s : AuthState)
    (st : WebStorage) (e : ApiError) :
    login s st (Except.error e) = (s, st, Except.error e)
    ∧ friendlyMessage e ≠ "" := by
  refine ⟨rfl, ?_⟩
  exact jsOrStr_ne_empty _ _ (jsOrStr_ne_empty _ _ (jsOrStr_ne_empty _ _
    (by decide)))

/-- C8: when the new password is under 6 characters or the two entered
copies differ, the submit handler surfaces a local validation error and
issues no network request at all. -/
theorem confirm_reset_local_validation_no_network (np cp : String)
    (resp : Except ApiError Unit) (h : np.length < 6 ∨ np ≠ cp) :
    (handleResetPassword np cp resp).requests = []
    ∧ (handleResetPassword np cp resp).errorMsg.isSome := by
  by_cases h1 : np.length < 6
  · simp [handleResetPassword, h1]
  · have h2 : np ≠ cp := h.resolve_left h1
    simp [handleResetPassword, h1, h2]

/-- Witness for C8: a 1-character password fails locally with no request. -/
theorem confirm_reset_local_validation_witness :
    (("a" : String).length < 6 ∨ ("a" : String) ≠ "a")
    ∧ ((handleResetPassword "a" "a" (Except.ok ())).requests = []
       ∧ (handleResetPassword "a" "a" (Except.ok ())).errorMsg.isSome) :=
  ⟨Or.inl (by decide),
   confirm_reset_local_validation_no_network "a" "a" (Except.ok ())
     (Or.inl (by decide))⟩
